import Mathlib

/-!
Verification development for the browser-automation extension.

This file shallowly embeds the parts of the extension's TypeScript source
that the specification's claims are about, and proves (or refutes) each
claim against the embedding:

* the vision-response box parser `parseBoxes` and the incremental
  streaming parse loop of `ModelClient.analyzeScreenshot`
  (`src/api/model-client.ts`);
* the normalized 0-1000 coordinate conversions of
  `ModelClient.findElement`, `drawBoxesOnImage` and the content script's
  `createBoxElement`;
* the `execute_action` branch of `executeToolCall`
  (`src/tool-executor.ts`), including its perception-cache invalidation
  and the navigate safety check;
* the CDP key dispatch (`cdpPress` with `ControlOrMeta` resolution, and
  the table-driven `press` of `src/cdp.ts`);
* the automation loop's iteration/retry/termination structure and its
  catch handler (`runAutomation` in `src/background.ts`);
* the `chrome.tabs.onCreated` session hand-off on the per-tab session
  table (`src/background.ts`).

Machine integers are modelled as `Nat`/`Int`/`Rat` (the JS numbers
involved are small and exact), fallible operations return `Option` or
`Except`, and the effectful Chrome calls are modelled as explicit effect
lists with a success/failure oracle for the awaited primitives.
-/

namespace BrowserExt

/-! ### JS regex primitive helpers

`parseBoxes` in `src/api/model-client.ts` scans its input with the regex

  `/<collection\s+mention="([^"]*)"[^>]*>|<\/collection>|<point_box(?:\s+mention="([^"]*)")?>\s*\((\d+)\s*,\s*(\d+)\)\s*\((\d+)\s*,\s*(\d+)\)\s*<\/point_box>/g`

executed repeatedly (`tokenRegex.exec`), i.e. a left-to-right scan that at
each position tries the three alternatives in order and, on a match,
resumes after the matched text.  The helpers below implement the regex
pieces; each bounded character class (`[^"]*`, `[^>]*`, `\s*`, `\d+`) is
deterministic maximal munch, which coincides with the backtracking
semantics here because every class is followed by a delimiter the class
itself excludes. -/

/-- JS `\s` character class (ECMA-262 WhiteSpace ∪ LineTerminator). -/
def isJsWS (c : Char) : Bool :=
  let n := c.toNat
  n == 9 || n == 10 || n == 11 || n == 12 || n == 13 || n == 32 ||
  n == 160 || n == 5760 || (8192 ≤ n && n ≤ 8202) || n == 8232 ||
  n == 8233 || n == 8239 || n == 8287 || n == 12288 || n == 65279

/-- Consume an exact literal; `none` if the input does not start with it. -/
def dropLit : List Char → List Char → Option (List Char)
  | [], l => some l
  | _ :: _, [] => none
  | p :: ps, c :: cs => if p = c then dropLit ps cs else none

/-- `[^x]*x`: capture the (maximal) run of characters other than `stop`,
then consume `stop` itself; `none` if `stop` never occurs. -/
def breakOnChar (stop : Char) : List Char → Option (List Char × List Char)
  | [] => none
  | c :: cs =>
    if c = stop then some ([], cs)
    else match breakOnChar stop cs with
      | some (pre, post) => some (c :: pre, post)
      | none => none

/-- `\s*`: drop a maximal run of JS whitespace. -/
def skipWS (l : List Char) : List Char := l.dropWhile isJsWS

/-- `\s+`: require at least one JS whitespace character, drop the run. -/
def ws1 : List Char → Option (List Char)
  | [] => none
  | c :: cs => if isJsWS c then some (skipWS cs) else none

/-- Single required character. -/
def expectChar (x : Char) : List Char → Option (List Char)
  | [] => none
  | c :: cs => if c = x then some cs else none

/-- Numeric value of a digit string (JS `parseInt` on a `\d+` capture). -/
def digitsVal (l : List Char) : Nat :=
  l.foldl (fun acc c => 10 * acc + (c.toNat - 48)) 0

/-- `(\d+)`: a maximal nonempty digit run and its value. -/
def parseNatTok (l : List Char) : Option (Nat × List Char) :=
  let ds := l.takeWhile Char.isDigit
  match ds with
  | [] => none
  | _ :: _ => some (digitsVal ds, l.dropWhile Char.isDigit)

/-- A match of one alternative of `tokenRegex`. -/
inductive Token where
  | colOpen (label : String)
  | colClose
  | pointBox (mention : Option String) (x1 y1 x2 y2 : Nat)
  deriving DecidableEq, Repr

/-- Alternative 1: `<collection\s+mention="([^"]*)"[^>]*>`. -/
def parseCollectionOpen (l : List Char) : Option (Token × List Char) :=
  (dropLit "<collection".data l).bind fun l1 =>
  (ws1 l1).bind fun l2 =>
  (dropLit "mention=\"".data l2).bind fun l3 =>
  (breakOnChar '"' l3).bind fun (cap, l4) =>
  (breakOnChar '>' l4).map fun (_, rest) =>
  (Token.colOpen (String.mk cap), rest)

/-- Alternative 2: `<\/collection>`. -/
def parseCollectionClose (l : List Char) : Option (Token × List Char) :=
  (dropLit "</collection>".data l).map fun rest => (Token.colClose, rest)

/-- `\s*\((\d+)\s*,\s*(\d+)\)\s*\((\d+)\s*,\s*(\d+)\)\s*<\/point_box>`. -/
def parsePointBoxBody (l : List Char) : Option ((Nat × Nat × Nat × Nat) × List Char) :=
  (expectChar '(' (skipWS l)).bind fun l1 =>
  (parseNatTok l1).bind fun (x1, l2) =>
  (expectChar ',' (skipWS l2)).bind fun l3 =>
  (parseNatTok (skipWS l3)).bind fun (y1, l4) =>
  (expectChar ')' l4).bind fun l5 =>
  (expectChar '(' (skipWS l5)).bind fun l6 =>
  (parseNatTok l6).bind fun (x2, l7) =>
  (expectChar ',' (skipWS l7)).bind fun l8 =>
  (parseNatTok (skipWS l8)).bind fun (y2, l9) =>
  (expectChar ')' l9).bind fun l10 =>
  (dropLit "</point_box>".data (skipWS l10)).map fun rest =>
  ((x1, y1, x2, y2), rest)

/-- Alternative 3: `<point_box(?:\s+mention="([^"]*)")?>` followed by the
coordinate body.  The optional mention group is deterministic on the
character following `<point_box`: whitespace forces the group, `>` forces
its absence, anything else fails both branches (as the regex does). -/
def parsePointBox (l : List Char) : Option (Token × List Char) :=
  (dropLit "<point_box".data l).bind fun l1 =>
  (match l1 with
    | '>' :: rest => some ((none : Option String), rest)
    | c :: _ =>
      if isJsWS c then
        (ws1 l1).bind fun l2 =>
        (dropLit "mention=\"".data l2).bind fun l3 =>
        (breakOnChar '"' l3).bind fun (cap, l4) =>
        (expectChar '>' l4).map fun rest => (some (String.mk cap), rest)
      else none
    | [] => none).bind fun (m, l5) =>
  (parsePointBoxBody l5).map fun ((x1, y1, x2, y2), rest) =>
  (Token.pointBox m x1 y1 x2 y2, rest)

/-- One attempt of `tokenRegex` at the current position: the three
alternatives in source order. -/
def tryToken (l : List Char) : Option (Token × List Char) :=
  (parseCollectionOpen l).orElse fun _ =>
  (parseCollectionClose l).orElse fun _ =>
  parsePointBox l

/-- The `tokenRegex.exec` loop: scan left to right, emitting each match
and resuming after it, otherwise advancing one character.  `fuel` is an
upper bound on the number of scan steps; every step consumes at least one
character, so `fuel = l.length` (as used by `tokenize`) never runs out. -/
def tokenizeGo : Nat → List Char → List Token
  | 0, _ => []
  | _ + 1, [] => []
  | fuel + 1, c :: rest =>
    match tryToken (c :: rest) with
    | some (tk, remaining) => tk :: tokenizeGo fuel remaining
    | none => tokenizeGo fuel rest

/-- All matches of `tokenRegex` over the input, in order. -/
def tokenize (l : List Char) : List Token := tokenizeGo l.length l

/-- `BoundingBox` of `src/api/model-client.ts` (normalized 0-1000 space);
`label = none` models an `undefined` label. -/
structure BoundingBox where
  label : Option String
  x1 : Nat
  y1 : Nat
  x2 : Nat
  y2 : Nat
  deriving DecidableEq, Repr

/-- `match[2] || collectionLabel`: JS `||` falls through on `undefined`
and on the empty string. -/
def jsOrLabel (m col : Option String) : Option String :=
  match m with
  | some s => if s = "" then col else some s
  | none => col

/-- The body of the `while` loop of `parseBoxes`: thread the current
`collectionLabel` through the token stream and emit one box per
`point_box` match. -/
def assignLabelsGo : Option String → List Token → List BoundingBox
  | _, [] => []
  | _, Token.colOpen l :: rest => assignLabelsGo (some l) rest
  | _, Token.colClose :: rest => assignLabelsGo none rest
  | col, Token.pointBox m x1 y1 x2 y2 :: rest =>
    { label := jsOrLabel m col, x1 := x1, y1 := y1, x2 := x2, y2 := y2 } ::
      assignLabelsGo col rest

/-- `parseBoxes` of `src/api/model-client.ts`. -/
def parseBoxes (content : String) : List BoundingBox :=
  assignLabelsGo none (tokenize content.data)

/-! ### The incremental streaming parse of `ModelClient.analyzeScreenshot`

```
let content = "";
const allBoxes: BoundingBox[] = [];
await visionClient.streamChatCompletion(options, (delta) => {
  content += delta;
  const parsed = parseBoxes(content);
  const newBoxes = parsed.slice(allBoxes.length);
  allBoxes.push(...newBoxes);
  onStream(newBoxes);
});
```
-/

/-- One delta callback of `analyzeScreenshot`: accumulate the text,
re-parse, and append only the boxes past the count already emitted. -/
def streamStep (acc : String × List BoundingBox) (delta : String) :
    String × List BoundingBox :=
  let content := acc.1 ++ delta
  let parsed := parseBoxes content
  (content, acc.2 ++ parsed.drop acc.2.length)

/-- Final `allBoxes` after streaming the whole delta sequence. -/
def streamParseBoxes (deltas : List String) : List BoundingBox :=
  (deltas.foldl streamStep ("", [])).2

/-- The accumulated `content` after a sequence of deltas. -/
def strJoin (deltas : List String) : String :=
  deltas.foldl (fun a b => a ++ b) ""

/-! ### Structure of `parseBoxes` output -/

/-- Number of `point_box` matches in a token list (= number of boxes the
loop emits for it). -/
def countPointBoxes (ts : List Token) : Nat :=
  (ts.filter fun t => match t with
    | Token.pointBox _ _ _ _ _ => true
    | _ => false).length

/-- Effect of one token on the loop's `collectionLabel` variable. -/
def collectionStep (col : Option String) : Token → Option String
  | Token.colOpen l => some l
  | Token.colClose => none
  | Token.pointBox _ _ _ _ _ => col

/-- Scan a reversed token list for the most recent collection tag. -/
def lastColScan : List Token → Option String
  | [] => none
  | Token.colOpen l :: _ => some l
  | Token.colClose :: _ => none
  | Token.pointBox _ _ _ _ _ :: rest => lastColScan rest

/-- The label of the collection still open after the tokens `ts`: the
label of the most recent collection tag in `ts` when that tag is an open
tag, and nothing when it is a close tag or when there is no collection
tag at all. -/
def openCollectionLabel (ts : List Token) : Option String :=
  lastColScan ts.reverse

theorem foldl_collectionStep_eq_openCollectionLabel (ts : List Token) :
    ts.foldl collectionStep none = openCollectionLabel ts := by
  induction ts using List.reverseRecOn with
  | nil => rfl
  | append_singleton xs x ih =>
    rw [List.foldl_append, List.foldl_cons, List.foldl_nil]
    unfold openCollectionLabel
    rw [List.reverse_append, List.reverse_singleton, List.singleton_append]
    cases x with
    | colOpen l => rfl
    | colClose => rfl
    | pointBox m x1 y1 x2 y2 => simpa [collectionStep, lastColScan] using ih

theorem assignLabelsGo_append (xs : List Token) :
    ∀ (col : Option String) (ys : List Token),
      assignLabelsGo col (xs ++ ys) =
        assignLabelsGo col xs ++ assignLabelsGo (xs.foldl collectionStep col) ys := by
  induction xs with
  | nil => intro col ys; rfl
  | cons t rest ih =>
    intro col ys
    cases t with
    | colOpen l => simpa [assignLabelsGo, collectionStep] using ih (some l) ys
    | colClose => simpa [assignLabelsGo, collectionStep] using ih none ys
    | pointBox m x1 y1 x2 y2 => simpa [assignLabelsGo, collectionStep] using ih col ys

theorem length_assignLabelsGo (xs : List Token) :
    ∀ col : Option String, (assignLabelsGo col xs).length = countPointBoxes xs := by
  induction xs with
  | nil => intro col; rfl
  | cons t rest ih =>
    intro col
    cases t with
    | colOpen l => simpa [assignLabelsGo, countPointBoxes, List.filter] using ih (some l)
    | colClose => simpa [assignLabelsGo, countPointBoxes, List.filter] using ih none
    | pointBox m x1 y1 x2 y2 =>
      simpa [assignLabelsGo, countPointBoxes, List.filter] using ih col

/-- C3 counterexample: inside `<collection mention="L">`, a `point_box`
carrying its own mention attribute `mention=""` does not keep that
(empty) mention as its label: JS `match[2] || collectionLabel` treats the
empty capture as falsy, so the box is labelled `"L"` instead of `""`. -/
theorem parseBoxes_ownEmptyMention_cex :
    parseBoxes "<collection mention=\"L\"><point_box mention=\"\">(1,2)(3,4)</point_box></collection>"
        = [{ label := some "L", x1 := 1, y1 := 2, x2 := 3, y2 := 4 }]
      ∧ (some "L" : Option String) ≠ some "" :=
  ⟨by decide, by decide⟩

/-- The amended labelling rule, stated independently of the parse loop: a
box keeps its own mention when it is present and non-empty, and otherwise
inherits the label of the enclosing open collection (if any). -/
def specBoxLabel (m col : Option String) : Option String :=
  match m with
  | some v => if v = "" then col else some v
  | none => col

/-- C3 (amended): for every input text, the box emitted for a `point_box`
match keeps its own mention as label when that mention is present and
non-empty; when the mention is absent or empty the box inherits
`openCollectionLabel` of the tokens before it (the label of the most
recent still-open `collection`), which is `none` outside any open
collection. -/
theorem parseBoxes_label_rule (s : String) (a b : List Token) (m : Option String)
    (x1 y1 x2 y2 : Nat)
    (h : tokenize s.data = a ++ Token.pointBox m x1 y1 x2 y2 :: b) :
    (parseBoxes s)[countPointBoxes a]? =
      some { label := specBoxLabel m (openCollectionLabel a),
             x1 := x1, y1 := y1, x2 := x2, y2 := y2 } := by
  unfold parseBoxes
  rw [h, assignLabelsGo_append,
    List.getElem?_append_right (Nat.le_of_eq (length_assignLabelsGo a none)),
    length_assignLabelsGo, Nat.sub_self, foldl_collectionStep_eq_openCollectionLabel]
  cases m with
  | none => simp [assignLabelsGo, jsOrLabel, specBoxLabel]
  | some v => by_cases hv : v = "" <;> simp [assignLabelsGo, jsOrLabel, specBoxLabel, hv]

/-- Witness for `parseBoxes_label_rule`: an unlabelled `point_box` inside
`<collection mention="Cart">` inherits the label `"Cart"`. -/
theorem parseBoxes_label_rule_witness :
    tokenize ("<collection mention=\"Cart\"><point_box>(1,2)(3,4)</point_box></collection>").data
        = [Token.colOpen "Cart"] ++ Token.pointBox none 1 2 3 4 :: [Token.colClose]
      ∧ (parseBoxes "<collection mention=\"Cart\"><point_box>(1,2)(3,4)</point_box></collection>")[countPointBoxes [Token.colOpen "Cart"]]?
        = some { label := specBoxLabel none (openCollectionLabel [Token.colOpen "Cart"]),
                 x1 := 1, y1 := 2, x2 := 3, y2 := 4 } :=
  ⟨by decide,
   parseBoxes_label_rule _ [Token.colOpen "Cart"] [Token.colClose] none 1 2 3 4 (by decide)⟩

/-! ### C2: incremental vs one-shot parsing -/

/-- Text accumulated from deltas on top of an existing prefix `c`. -/
def strJoinFrom (c : String) (deltas : List String) : String :=
  deltas.foldl (fun a b => a ++ b) c

theorem streamGo_eq (full : String) :
    ∀ (ds : List String) (c : String) (boxes : List BoundingBox), ds ≠ [] →
      boxes <+: parseBoxes full →
      (∀ pre, pre <+: ds → parseBoxes (strJoinFrom c pre) <+: parseBoxes full) →
      strJoinFrom c ds = full →
      (ds.foldl streamStep (c, boxes)).2 = parseBoxes full := by
  intro ds
  induction ds with
  | nil => intro c boxes hne; exact absurd rfl hne
  | cons d tail ih =>
    intro c boxes _ hb hpre hfull
    have hstep : (d :: tail).foldl streamStep (c, boxes) =
        tail.foldl streamStep
          (c ++ d, boxes ++ (parseBoxes (c ++ d)).drop boxes.length) := rfl
    have hp1 : parseBoxes (c ++ d) <+: parseBoxes full := by
      have : strJoinFrom c [d] = c ++ d := rfl
      exact this ▸ hpre [d] ⟨tail, rfl⟩
    have hb1 : boxes ++ (parseBoxes (c ++ d)).drop boxes.length <+: parseBoxes full := by
      by_cases hlen : (parseBoxes (c ++ d)).length ≤ boxes.length
      · rw [List.drop_eq_nil_of_le hlen, List.append_nil]; exact hb
      · have hle : boxes.length ≤ (parseBoxes (c ++ d)).length :=
          Nat.le_of_lt (Nat.lt_of_not_le hlen)
        have hbp : boxes <+: parseBoxes (c ++ d) :=
          List.prefix_of_prefix_length_le hb hp1 hle
        obtain ⟨t, ht⟩ := hbp
        rw [← ht, List.drop_left, ht]
        exact hp1
    cases tail with
    | nil =>
      rw [hstep, List.foldl_nil]
      have hcd : c ++ d = full := hfull
      obtain ⟨t, ht⟩ := hb
      rw [hcd, ← ht, List.drop_left, ht]
    | cons d2 tail2 =>
      rw [hstep]
      refine ih (c ++ d)
        (boxes ++ (parseBoxes (c ++ d)).drop boxes.length)
        (by simp) hb1 ?_ hfull
      intro pre hp
      exact hpre (d :: pre) (List.cons_prefix_cons.mpr ⟨rfl, hp⟩)

/-- C2 counterexample: re-parsing after each delta is not equivalent to a
single whole-text parse.  Split after the unterminated attribute value of
a `collection` open tag: the first delta parses as a bare `point_box` and
the box is emitted, but the completed text parses that whole region as
the collection's `mention="..."` attribute and yields no box at all. -/
theorem streamParseBoxes_cex :
    streamParseBoxes ["<collection mention=\"x<point_box>(1,2)(3,4)</point_box>", "\">"]
        = [{ label := none, x1 := 1, y1 := 2, x2 := 3, y2 := 4 }]
      ∧ parseBoxes (strJoin ["<collection mention=\"x<point_box>(1,2)(3,4)</point_box>", "\">"])
        = []
      ∧ streamParseBoxes ["<collection mention=\"x<point_box>(1,2)(3,4)</point_box>", "\">"]
        ≠ parseBoxes (strJoin ["<collection mention=\"x<point_box>(1,2)(3,4)</point_box>", "\">"]) :=
  ⟨by decide, by decide, by decide⟩

/-- C2 (amended): for every delta sequence such that each accumulated
intermediate text parses to a prefix of the parse of the full text (true
for well-formed streamed responses, refuted in general by
`streamParseBoxes_cex`), the incremental parse of
`ModelClient.analyzeScreenshot` produces exactly the boxes of a single
whole-text `parseBoxes`. -/
theorem streamParseBoxes_eq_parseBoxes (deltas : List String)
    (h : ∀ pre, pre <+: deltas →
      parseBoxes (strJoin pre) <+: parseBoxes (strJoin deltas)) :
    streamParseBoxes deltas = parseBoxes (strJoin deltas) := by
  cases deltas with
  | nil => rfl
  | cons d ds =>
    exact streamGo_eq (strJoin (d :: ds)) (d :: ds) "" [] (by simp)
      List.nil_prefix (fun pre hp => h pre hp) rfl

/-- Witness for `streamParseBoxes_eq_parseBoxes`: a box tag delivered in
two deltas, split in the middle of the coordinates. -/
theorem streamParseBoxes_eq_witness :
    (∀ pre, pre <+: ["<point_box>(1,", "2)(3,4)</point_box>"] →
        parseBoxes (strJoin pre)
          <+: parseBoxes (strJoin ["<point_box>(1,", "2)(3,4)</point_box>"]))
      ∧ streamParseBoxes ["<point_box>(1,", "2)(3,4)</point_box>"]
        = parseBoxes (strJoin ["<point_box>(1,", "2)(3,4)</point_box>"]) := by
  have hside : ∀ pre, pre <+: ["<point_box>(1,", "2)(3,4)</point_box>"] →
      parseBoxes (strJoin pre)
        <+: parseBoxes (strJoin ["<point_box>(1,", "2)(3,4)</point_box>"]) := by
    intro pre hp
    obtain ⟨t, ht⟩ := hp
    cases pre with
    | nil => exact List.nil_prefix
    | cons p ps =>
      cases ps with
      | nil =>
        obtain ⟨hp1, -⟩ := List.cons.inj ht
        subst hp1
        decide
      | cons q qs =>
        obtain ⟨hp1, ht2⟩ := List.cons.inj ht
        obtain ⟨hq1, ht3⟩ := List.cons.inj ht2
        have hqs : qs = [] := (List.append_eq_nil.mp ht3).1
        subst hp1; subst hq1; subst hqs
        decide
  exact ⟨hside, streamParseBoxes_eq_parseBoxes _ hside⟩

/-! ### C4: normalized 0-1000 coordinate conversion

`ModelClient.findElement` converts with
`Math.round((norm / 1000) * viewportDim)`; `drawBoxesOnImage` and the
content script's `createBoxElement` convert each box corner with
`(coord / 1000) * dim` (no rounding).  The JS arithmetic is modelled
exactly over `Rat`; `Math.round` rounds half-up (towards +infinity). -/

/-- JS `Math.round`. -/
def jsRound (q : ℚ) : ℤ := ⌊q + 1 / 2⌋

/-- Unrounded normalized-to-pixel conversion of one coordinate,
as in `drawBoxesOnImage` / `createBoxElement`: `(coord / 1000) * dim`. -/
def normToPixel (n dim : ℕ) : ℚ := (n : ℚ) / 1000 * dim

/-- Rounded conversion of one coordinate, as in `findElement`:
`Math.round((norm / 1000) * viewportDim)`. -/
def normToPixelRound (n dim : ℕ) : ℤ := jsRound (normToPixel n dim)

/-- `findElement`'s normalized pair to CSS pixel pair. -/
def findElementCoords (normX normY w h : ℕ) : ℤ × ℤ :=
  (normToPixelRound normX w, normToPixelRound normY h)

/-- All four corners of a box, as converted by `drawBoxesOnImage` and
`createBoxElement` against dimensions `(w, h)`. -/
def boxToPixels (b : BoundingBox) (w h : ℕ) : ℚ × ℚ × ℚ × ℚ :=
  (normToPixel b.x1 w, normToPixel b.y1 h, normToPixel b.x2 w, normToPixel b.y2 h)

/-- The inverse conversion, back from pixels to the normalized space. -/
def pixelToNorm (p : ℚ) (dim : ℕ) : ℚ := p * 1000 / dim

/-- C4: against a viewport dimension `w > 0`, a normalized coordinate
`n ≤ 1000` converts to `n / 1000 * w` (each box corner uses exactly this
formula; `findElement` additionally rounds to the nearest integer, moving
the value by at most `1/2`), the unrounded conversion inverts exactly,
and inverting the rounded conversion recovers `n` up to `500 / w`. -/
theorem normalized_conversion_roundtrip (n w : ℕ) (hw : 0 < w) (_ : n ≤ 1000) :
    normToPixel n w = (n : ℚ) / 1000 * w
      ∧ |(normToPixelRound n w : ℚ) - normToPixel n w| ≤ 1 / 2
      ∧ pixelToNorm (normToPixel n w) w = (n : ℚ)
      ∧ |pixelToNorm ((normToPixelRound n w : ℤ) : ℚ) w - (n : ℚ)| ≤ 500 / w := by
  have hw0 : (0 : ℚ) < (w : ℚ) := by exact_mod_cast hw
  have hwne : (w : ℚ) ≠ 0 := ne_of_gt hw0
  set q : ℚ := (n : ℚ) / 1000 * w with hq
  have hround : |(jsRound q : ℚ) - q| ≤ 1 / 2 := by
    have h1 : ((jsRound q : ℤ) : ℚ) ≤ q + 1 / 2 := Int.floor_le _
    have h2 : q + 1 / 2 < ((jsRound q : ℤ) : ℚ) + 1 := Int.lt_floor_add_one _
    rw [abs_le]
    constructor <;> [linarith; linarith]
  refine ⟨rfl, hround, ?_, ?_⟩
  · unfold pixelToNorm normToPixel
    field_simp
  · have hinv : pixelToNorm ((jsRound q : ℤ) : ℚ) w - (n : ℚ)
        = ((jsRound q : ℚ) - q) * 1000 / w := by
      unfold pixelToNorm
      rw [hq]
      field_simp
      ring
    rw [show normToPixelRound n w = jsRound q from rfl, hinv, abs_div, abs_mul]
    rw [abs_of_pos hw0, show |(1000 : ℚ)| = 1000 by norm_num]
    rw [div_le_div_iff₀ hw0 hw0]
    have := hround
    nlinarith [abs_nonneg ((jsRound q : ℚ) - q)]

/-- Witness for `normalized_conversion_roundtrip` at `n = 437`,
`w = 1280`. -/
theorem normalized_conversion_roundtrip_witness :
    ((0 : ℕ) < 1280 ∧ (437 : ℕ) ≤ 1000)
      ∧ (normToPixel 437 1280 = (437 : ℚ) / 1000 * 1280
        ∧ |(normToPixelRound 437 1280 : ℚ) - normToPixel 437 1280| ≤ 1 / 2
        ∧ pixelToNorm (normToPixel 437 1280) 1280 = (437 : ℚ)
        ∧ |pixelToNorm ((normToPixelRound 437 1280 : ℤ) : ℚ) 1280 - (437 : ℚ)|
            ≤ 500 / 1280) :=
  ⟨⟨by norm_num, by norm_num⟩,
    by
      have h := normalized_conversion_roundtrip 437 1280 (by norm_num) (by norm_num)
      simpa using h⟩

/-! ### The `execute_action` branch of `executeToolCall`

`src/tool-executor.ts`.  The `toolState` threaded between tool calls is
the perception cache; the Chrome/CDP awaits (`executeAction`,
`chrome.tabs.update`) are modelled by an oracle `exec : Option String`
(`none` = the await succeeds, `some msg` = it throws `Error(msg)` and the
surrounding `try`/`catch` produces the `Failed to ...` result).  Every
side effect the branch performs is recorded in an effect list. -/

/-- Viewport dimensions from `GET_VIEWPORT`. -/
structure Viewport where
  width : Int
  height : Int
  deriving DecidableEq, Repr

/-- `ToolState` of `src/tool-executor.ts` (`null` = `none`). -/
structure ToolState where
  currentScreenshot : Option String
  viewport : Option Viewport
  lastAnalysis : Option String
  lastFoundElement : Option String
  deriving DecidableEq, Repr

/-- A CDP-level action forwarded to `executeAction` in `src/cdp.ts`. -/
inductive CdpOp where
  | click (x y : Int)
  | typeText (text : String)
  | press (key : String)
  | scroll (direction : String)
  deriving DecidableEq, Repr

/-- One observable side effect of the `execute_action` branch. -/
inductive Effect where
  | clearBoxes
  | flashClick (x y : Int)
  | cdp (op : CdpOp)
  | updateTab (url : String)
  | delayMs (ms : Nat)
  deriving DecidableEq, Repr

/-- The `args` object of an `execute_action` tool call, after the `as`
casts the source performs (absent fields are `none`). -/
inductive ExecArgs where
  | click (x y : Option Int)
  | typeText (text : Option String)
  | press (key : Option String)
  | scroll (direction : Option String)
  | wait (duration : Option Nat)
  | navigate (url : Option String)
  | unknown (name : String)
  deriving DecidableEq, Repr

/-- Result of one `execute_action` call: the string returned to the
model, the tool state afterwards, and the effects performed. -/
structure ExecOutcome where
  result : String
  state : ToolState
  effects : List Effect
  deriving DecidableEq, Repr

/-- `NAVIGATION_DELAY_MS` of `src/tool-executor.ts`. -/
def NAVIGATION_DELAY_MS : Nat := 2000

/-- JS `startsWith` (argument order as in `url.startsWith(pat)`). -/
def jsStartsWith (s pat : String) : Bool :=
  dropLit pat.data s.data |>.isSome

/-- The `case "execute_action"` switch of `executeToolCall`
(`src/tool-executor.ts`, lines 158-283), transcribed case by case.
`CLEAR_BOXES` is sent before the inner switch, so it heads every effect
list.  JS falsiness of `""`/`undefined`/`0` is modelled explicitly where
the source uses `!text`, `!key`, `!direction`, `!url`, `|| 1000` and
`lastFoundElement || ...`. -/
def executeActionTool (ts : ToolState) (args : ExecArgs) (exec : Option String) :
    ExecOutcome :=
  match args with
  | ExecArgs.click ox oy =>
    match ox, oy with
    | some x, some y =>
      let clickTarget :=
        match ts.lastFoundElement with
        | some s => if s = "" then s!"({x}, {y})" else s
        | none => s!"({x}, {y})"
      (match exec with
        | none =>
          { result := "Clicked on " ++ clickTarget,
            state := { ts with currentScreenshot := none, viewport := none,
                               lastFoundElement := none },
            effects := [Effect.clearBoxes, Effect.flashClick x y,
                        Effect.cdp (CdpOp.click x y)] }
        | some m =>
          { result := "Failed to click: " ++ m, state := ts,
            effects := [Effect.clearBoxes, Effect.flashClick x y] })
    | _, _ =>
      { result := "Error: click requires x and y coordinates. Use find_element first to get coordinates.",
        state := ts, effects := [Effect.clearBoxes] }
  | ExecArgs.typeText ot =>
    match ot with
    | some t =>
      if t = "" then
        { result := "Error: type requires text parameter", state := ts,
          effects := [Effect.clearBoxes] }
      else
        (match exec with
          | none =>
            { result := "Typed: \"" ++ t ++ "\"", state := ts,
              effects := [Effect.clearBoxes, Effect.cdp (CdpOp.typeText t)] }
          | some m =>
            { result := "Failed to type: " ++ m, state := ts,
              effects := [Effect.clearBoxes] })
    | none =>
      { result := "Error: type requires text parameter", state := ts,
        effects := [Effect.clearBoxes] }
  | ExecArgs.press ok =>
    match ok with
    | some k =>
      if k = "" then
        { result := "Error: press requires key parameter (Enter, Escape, ArrowDown, ArrowUp)",
          state := ts, effects := [Effect.clearBoxes] }
      else
        (match exec with
          | none =>
            { result := "Pressed: " ++ k,
              state := if k = "Enter" then
                  { ts with currentScreenshot := none, viewport := none }
                else ts,
              effects := [Effect.clearBoxes, Effect.cdp (CdpOp.press k)] }
          | some m =>
            { result := "Failed to press key: " ++ m, state := ts,
              effects := [Effect.clearBoxes] })
    | none =>
      { result := "Error: press requires key parameter (Enter, Escape, ArrowDown, ArrowUp)",
        state := ts, effects := [Effect.clearBoxes] }
  | ExecArgs.scroll od =>
    match od with
    | some d =>
      if d = "" then
        { result := "Error: scroll requires direction parameter (up, down, left, right)",
          state := ts, effects := [Effect.clearBoxes] }
      else
        (match exec with
          | none =>
            { result := "Scrolled " ++ d,
              state := { ts with currentScreenshot := none, viewport := none },
              effects := [Effect.clearBoxes, Effect.cdp (CdpOp.scroll d)] }
          | some m =>
            { result := "Failed to scroll: " ++ m, state := ts,
              effects := [Effect.clearBoxes] })
    | none =>
      { result := "Error: scroll requires direction parameter (up, down, left, right)",
        state := ts, effects := [Effect.clearBoxes] }
  | ExecArgs.wait od =>
    let d := match od with
      | some n => if n = 0 then 1000 else n
      | none => 1000
    { result := s!"Waited {d}ms", state := ts,
      effects := [Effect.clearBoxes, Effect.delayMs d] }
  | ExecArgs.navigate ou =>
    match ou with
    | some u =>
      if u = "" then
        { result := "Error: navigate requires url parameter", state := ts,
          effects := [Effect.clearBoxes] }
      else if jsStartsWith u "javascript:" || jsStartsWith u "data:" then
        { result := "Error: Cannot navigate to unsafe URL", state := ts,
          effects := [Effect.clearBoxes] }
      else
        (match exec with
          | none =>
            { result := "Navigated to " ++ u,
              state := { ts with currentScreenshot := none, viewport := none,
                                 lastAnalysis := none },
              effects := [Effect.clearBoxes, Effect.updateTab u,
                          Effect.delayMs NAVIGATION_DELAY_MS] }
          | some m =>
            { result := "Failed to navigate: " ++ m, state := ts,
              effects := [Effect.clearBoxes] })
    | none =>
      { result := "Error: navigate requires url parameter", state := ts,
        effects := [Effect.clearBoxes] }
  | ExecArgs.unknown name =>
    { result := "Error: Unknown action \"" ++ name ++ "\". Valid actions: click, type, press, scroll, wait, navigate",
      state := ts, effects := [Effect.clearBoxes] }

/-- A sample populated perception cache used by the witnesses below. -/
def sampleToolState : ToolState :=
  { currentScreenshot := some "img", viewport := some { width := 1280, height := 800 },
    lastAnalysis := some "page description", lastFoundElement := some "Search button" }

/-- C1: whenever an `execute_action` tool call whose action is `click`
(with coordinates), `press` with key `Enter`, `scroll`, or `navigate`
(with an allowed URL) executes successfully, the perception cache is
empty afterwards: `toolState.currentScreenshot` and `toolState.viewport`
are both `null`. -/
theorem executeAction_invalidates_cache (ts : ToolState) :
    (∀ x y : Int,
        (executeActionTool ts (ExecArgs.click (some x) (some y)) none).state.currentScreenshot = none
      ∧ (executeActionTool ts (ExecArgs.click (some x) (some y)) none).state.viewport = none)
  ∧ ((executeActionTool ts (ExecArgs.press (some "Enter")) none).state.currentScreenshot = none
      ∧ (executeActionTool ts (ExecArgs.press (some "Enter")) none).state.viewport = none)
  ∧ (∀ d : String, d ≠ "" →
        (executeActionTool ts (ExecArgs.scroll (some d)) none).state.currentScreenshot = none
      ∧ (executeActionTool ts (ExecArgs.scroll (some d)) none).state.viewport = none)
  ∧ (∀ u : String, u ≠ "" →
        jsStartsWith u "javascript:" = false → jsStartsWith u "data:" = false →
        (executeActionTool ts (ExecArgs.navigate (some u)) none).state.currentScreenshot = none
      ∧ (executeActionTool ts (ExecArgs.navigate (some u)) none).state.viewport = none) := by
  refine ⟨fun x y => ?_, ?_, fun d hd => ?_, fun u hu hj hdata => ?_⟩
  · simp [executeActionTool]
  · simp [executeActionTool]
  · simp [executeActionTool, hd]
  · simp [executeActionTool, hu, hj, hdata]

/-- Witness for `executeAction_invalidates_cache`: scrolling down and
navigating to an ordinary URL from a populated cache. -/
theorem executeAction_invalidates_cache_witness :
    (("down" : String) ≠ "" ∧ ("https://example.com" : String) ≠ ""
      ∧ jsStartsWith "https://example.com" "javascript:" = false
      ∧ jsStartsWith "https://example.com" "data:" = false)
  ∧ ((executeActionTool sampleToolState (ExecArgs.scroll (some "down")) none).state.currentScreenshot = none
      ∧ (executeActionTool sampleToolState (ExecArgs.scroll (some "down")) none).state.viewport = none)
  ∧ ((executeActionTool sampleToolState (ExecArgs.navigate (some "https://example.com")) none).state.currentScreenshot = none
      ∧ (executeActionTool sampleToolState (ExecArgs.navigate (some "https://example.com")) none).state.viewport = none) :=
  ⟨⟨by decide, by decide, by decide, by decide⟩,
   (executeAction_invalidates_cache sampleToolState).2.2.1 "down" (by decide),
   (executeAction_invalidates_cache sampleToolState).2.2.2 "https://example.com"
     (by decide) (by decide) (by decide)⟩

/-- C8: a `navigate` tool action refuses `javascript:` and `data:` URLs
deterministically (same error result for every state and every oracle, no
`updateTab` and no settle delay among its effects, state unchanged, and
the refusal is a returned result string rather than a thrown error, so
the loop's retry path is never taken); any other non-empty URL whose
`chrome.tabs.update` succeeds updates the tab URL and then waits the
fixed `NAVIGATION_DELAY_MS` settle delay before the action returns. -/
theorem navigate_scheme_guard (ts : ToolState) (u : String) (e : Option String)
    (hu : u ≠ "") :
    ((jsStartsWith u "javascript:" = true ∨ jsStartsWith u "data:" = true) →
        (executeActionTool ts (ExecArgs.navigate (some u)) e).result
            = "Error: Cannot navigate to unsafe URL"
      ∧ (executeActionTool ts (ExecArgs.navigate (some u)) e).state = ts
      ∧ (executeActionTool ts (ExecArgs.navigate (some u)) e).effects = [Effect.clearBoxes])
  ∧ (jsStartsWith u "javascript:" = false → jsStartsWith u "data:" = false →
      e = none →
        (executeActionTool ts (ExecArgs.navigate (some u)) e).effects
            = [Effect.clearBoxes, Effect.updateTab u, Effect.delayMs NAVIGATION_DELAY_MS]
      ∧ (executeActionTool ts (ExecArgs.navigate (some u)) e).result = "Navigated to " ++ u
      ∧ (executeActionTool ts (ExecArgs.navigate (some u)) e).state
          = { ts with currentScreenshot := none, viewport := none, lastAnalysis := none }) := by
  constructor
  · intro hunsafe
    rcases hunsafe with hj | hd
    · simp [executeActionTool, hu, hj]
    · simp [executeActionTool, hu, hd]
  · intro hj hd he
    subst he
    simp [executeActionTool, hu, hj, hd]

/-- Witness for `navigate_scheme_guard`: the `javascript:` URL is refused
with the fixed error and no effects, while the same call on a plain URL
updates the tab and waits. -/
theorem navigate_scheme_guard_witness :
    (("javascript:alert(1)" : String) ≠ ""
      ∧ jsStartsWith "javascript:alert(1)" "javascript:" = true)
  ∧ ((executeActionTool sampleToolState (ExecArgs.navigate (some "javascript:alert(1)")) none).result
        = "Error: Cannot navigate to unsafe URL"
    ∧ (executeActionTool sampleToolState (ExecArgs.navigate (some "javascript:alert(1)")) none).state
        = sampleToolState
    ∧ (executeActionTool sampleToolState (ExecArgs.navigate (some "javascript:alert(1)")) none).effects
        = [Effect.clearBoxes]) :=
  ⟨⟨by decide, by decide⟩,
   (navigate_scheme_guard sampleToolState "javascript:alert(1)" none (by decide)).1
     (Or.inl (by decide))⟩

/-- C10: a successful `execute_action` with action `type`, or with action
`press` and any key other than `Enter`, leaves the perception cache
unchanged: `currentScreenshot`, `viewport` and `lastAnalysis` keep their
previous values. -/
theorem typeAndNonEnterPress_keepCache (ts : ToolState) :
    (∀ t : String, t ≠ "" →
        (executeActionTool ts (ExecArgs.typeText (some t)) none).state.currentScreenshot
            = ts.currentScreenshot
      ∧ (executeActionTool ts (ExecArgs.typeText (some t)) none).state.viewport = ts.viewport
      ∧ (executeActionTool ts (ExecArgs.typeText (some t)) none).state.lastAnalysis
            = ts.lastAnalysis)
  ∧ (∀ k : String, k ≠ "" → k ≠ "Enter" →
        (executeActionTool ts (ExecArgs.press (some k)) none).state.currentScreenshot
            = ts.currentScreenshot
      ∧ (executeActionTool ts (ExecArgs.press (some k)) none).state.viewport = ts.viewport
      ∧ (executeActionTool ts (ExecArgs.press (some k)) none).state.lastAnalysis
            = ts.lastAnalysis) := by
  constructor
  · intro t ht
    simp [executeActionTool, ht]
  · intro k hk hke
    simp [executeActionTool, hk, hke]

/-- Witness for `typeAndNonEnterPress_keepCache`: typing `"hello"` and
pressing `Escape` on a populated cache. -/
theorem typeAndNonEnterPress_keepCache_witness :
    (("hello" : String) ≠ "" ∧ ("Escape" : String) ≠ "" ∧ ("Escape" : String) ≠ "Enter")
  ∧ ((executeActionTool sampleToolState (ExecArgs.typeText (some "hello")) none).state.currentScreenshot
        = sampleToolState.currentScreenshot
    ∧ (executeActionTool sampleToolState (ExecArgs.typeText (some "hello")) none).state.viewport
        = sampleToolState.viewport
    ∧ (executeActionTool sampleToolState (ExecArgs.typeText (some "hello")) none).state.lastAnalysis
        = sampleToolState.lastAnalysis)
  ∧ ((executeActionTool sampleToolState (ExecArgs.press (some "Escape")) none).state.currentScreenshot
        = sampleToolState.currentScreenshot
    ∧ (executeActionTool sampleToolState (ExecArgs.press (some "Escape")) none).state.viewport
        = sampleToolState.viewport
    ∧ (executeActionTool sampleToolState (ExecArgs.press (some "Escape")) none).state.lastAnalysis
        = sampleToolState.lastAnalysis) :=
  ⟨⟨by decide, by decide, by decide⟩,
   (typeAndNonEnterPress_keepCache sampleToolState).1 "hello" (by decide),
   (typeAndNonEnterPress_keepCache sampleToolState).2 "Escape" (by decide) (by decide)⟩

/-! ### CDP key dispatch

`cdpPress` (the keyboard layer with `ControlOrMeta` resolution and the
modifier bitmask) and the table-driven `press` of `src/cdp.ts`, whose
four-key `KEY_DEFINITIONS` table rejects everything else with
`Unsupported key: ...`.  Each `Input.dispatchKeyEvent` command is
recorded as a `KeyEvent`; a field the source does not pass (`text` on
`keyUp`, `modifiers` in the plain `press`) keeps the CDP default
(`none` / `0`). -/

/-- One `Input.dispatchKeyEvent` command. -/
inductive KeyEventType where
  | keyDown
  | keyUp
  deriving DecidableEq, Repr

structure KeyEvent where
  type : KeyEventType
  key : String
  code : String
  keyCode : Nat
  text : Option String
  modifiers : Nat
  deriving DecidableEq, Repr

/-- Entry of a `KEY_DEFINITIONS` table. -/
structure KeyDef where
  keyCode : Nat
  code : String
  text : Option String
  deriving DecidableEq, Repr

/-- `KEY_DEFINITIONS` of `cdpPress` (Playwright-style US layout). -/
def KEY_DEFINITIONS (k : String) : Option KeyDef :=
  match k with
  | "Enter" => some { keyCode := 13, code := "Enter", text := some "\r" }
  | "Tab" => some { keyCode := 9, code := "Tab", text := none }
  | "Escape" => some { keyCode := 27, code := "Escape", text := none }
  | "Backspace" => some { keyCode := 8, code := "Backspace", text := none }
  | "Delete" => some { keyCode := 46, code := "Delete", text := none }
  | "ArrowUp" => some { keyCode := 38, code := "ArrowUp", text := none }
  | "ArrowDown" => some { keyCode := 40, code := "ArrowDown", text := none }
  | "ArrowLeft" => some { keyCode := 37, code := "ArrowLeft", text := none }
  | "ArrowRight" => some { keyCode := 39, code := "ArrowRight", text := none }
  | "Home" => some { keyCode := 36, code := "Home", text := none }
  | "End" => some { keyCode := 35, code := "End", text := none }
  | "PageUp" => some { keyCode := 33, code := "PageUp", text := none }
  | "PageDown" => some { keyCode := 34, code := "PageDown", text := none }
  | "Space" => some { keyCode := 32, code := "Space", text := some " " }
  | "Control" => some { keyCode := 17, code := "ControlLeft", text := none }
  | "Shift" => some { keyCode := 16, code := "ShiftLeft", text := none }
  | "Alt" => some { keyCode := 18, code := "AltLeft", text := none }
  | "Meta" => some { keyCode := 91, code := "MetaLeft", text := none }
  | _ => none

/-- `MODIFIER_FLAGS` (modifier key to CDP bit flag). -/
def MODIFIER_FLAGS (m : String) : Option Nat :=
  match m with
  | "Alt" => some 1
  | "Control" => some 2
  | "Meta" => some 4
  | "Shift" => some 8
  | _ => none

/-- `key.replace(/ControlOrMeta/g, repl)`: replace every occurrence of
the 13-character pattern, scanning left to right.  `fuel` bounds the scan
steps; each step consumes at least one character, so the initial
`l.length` never runs out. -/
def replaceCOMGo (repl : List Char) : Nat → List Char → List Char
  | 0, l => l
  | _ + 1, [] => []
  | fuel + 1, c :: rest =>
    if (dropLit "ControlOrMeta".data (c :: rest)).isSome then
      repl ++ replaceCOMGo repl fuel ((c :: rest).drop 13)
    else
      c :: replaceCOMGo repl fuel rest

def replaceControlOrMeta (repl : String) (key : String) : String :=
  String.mk (replaceCOMGo repl.data key.data.length key.data)

/-- JS `"a+b".split("+")` (the separator is a single character and the
result always has at least one part). -/
def splitPlus : List Char → List (List Char)
  | [] => [[]]
  | '+' :: rest => [] :: splitPlus rest
  | c :: rest =>
    match splitPlus rest with
    | [] => [[c]]
    | g :: gs => (c :: g) :: gs

/-- JS `charCodeAt(0)`; the empty string yields `NaN` in JS, which is
outside the modelled inputs, so it is mapped to `0` here. -/
def charCodeAt0 (s : String) : Nat :=
  match s.data with
  | [] => 0
  | c :: _ => c.toNat

/-- JS `toUpperCase` on the ASCII key names involved. -/
def jsToUpper (s : String) : String := String.mk (s.data.map Char.toUpper)

/-- JS 32-bit `mask & ~flag` for non-negative values. -/
def clearFlag (mask flag : Nat) : Nat := mask &&& (4294967295 ^^^ flag)

/-- The modifier `keyUp` loop of `cdpPress`: walk the modifiers in
reverse order, clearing each one's bit from the mask before dispatching
its `keyUp` (so each event carries the mask without the keys released so
far, ending at `0`). -/
def releaseModifiers (mask : Nat) : List String → List KeyEvent
  | [] => []
  | m :: rest =>
    match KEY_DEFINITIONS m with
    | some d =>
      let mask2 := clearFlag mask ((MODIFIER_FLAGS m).getD 0)
      { type := KeyEventType.keyUp, key := m, code := d.code, keyCode := d.keyCode,
        text := none, modifiers := mask2 } :: releaseModifiers mask2 rest
    | none => releaseModifiers mask rest

/-- `cdpPress`: resolve the `ControlOrMeta` alias (`Meta` on the Mac OS
family, `Control` elsewhere), split the combination on `+`, compute the
modifier bitmask, press the modifiers down in order, press and release
the main key, and release the modifiers in reverse order.  A main key
absent from `KEY_DEFINITIONS` falls back to a synthesized single-letter
definition. -/
def cdpPress (isMac : Bool) (key : String) : List KeyEvent :=
  let resolvedKey := replaceControlOrMeta (if isMac then "Meta" else "Control") key
  let parts := (splitPlus resolvedKey.data).map String.mk
  let modifiers := parts.dropLast
  let mainKey := parts.getLastD ""
  let modifierFlags := modifiers.foldl (fun acc m => acc ||| (MODIFIER_FLAGS m).getD 0) 0
  let keyDef := (KEY_DEFINITIONS mainKey).getD
    { keyCode := charCodeAt0 (jsToUpper mainKey),
      code := "Key" ++ jsToUpper mainKey,
      text := if mainKey.length = 1 then some mainKey else none }
  let downs := modifiers.filterMap fun m =>
    (KEY_DEFINITIONS m).map fun d =>
      { type := KeyEventType.keyDown, key := m, code := d.code, keyCode := d.keyCode,
        text := none, modifiers := modifierFlags }
  downs
    ++ [{ type := KeyEventType.keyDown, key := mainKey, code := keyDef.code,
          keyCode := keyDef.keyCode, text := keyDef.text, modifiers := modifierFlags },
        { type := KeyEventType.keyUp, key := mainKey, code := keyDef.code,
          keyCode := keyDef.keyCode, text := none, modifiers := modifierFlags }]
    ++ releaseModifiers modifierFlags modifiers.reverse

/-- `KEY_DEFINITIONS` of `press` in `src/cdp.ts`. -/
def KEY_DEFINITIONS_CDP (k : String) : Option KeyDef :=
  match k with
  | "Enter" => some { keyCode := 13, code := "Enter", text := some "\r" }
  | "Escape" => some { keyCode := 27, code := "Escape", text := none }
  | "ArrowUp" => some { keyCode := 38, code := "ArrowUp", text := none }
  | "ArrowDown" => some { keyCode := 40, code := "ArrowDown", text := none }
  | _ => none

/-- `press` of `src/cdp.ts`: single named key, no combination support;
keys outside the table throw `Unsupported key: ...`. -/
def press (key : String) : Except String (List KeyEvent) :=
  match KEY_DEFINITIONS_CDP key with
  | none => Except.error ("Unsupported key: " ++ key)
  | some d =>
    Except.ok
      [{ type := KeyEventType.keyDown, key := key, code := d.code, keyCode := d.keyCode,
         text := d.text, modifiers := 0 },
       { type := KeyEventType.keyUp, key := key, code := d.code, keyCode := d.keyCode,
         text := none, modifiers := 0 }]

/-- C5: `cdpPress` on `"ControlOrMeta+a"` dispatches exactly the modifier
keyDown (`Meta` on the Mac OS family, `Control` elsewhere), then
keyDown and keyUp of `"a"`, then the modifier keyUp, carrying the
modifier bitmask across the sequence and dropping it on release; and a
key name with no definition in `src/cdp.ts`'s table fails with the
unsupported-key error. -/
theorem cdpPress_controlOrMeta_a :
    (∀ isMac : Bool,
      cdpPress isMac "ControlOrMeta+a" =
        (let modKey := if isMac then "Meta" else "Control"
         let modCode := if isMac then "MetaLeft" else "ControlLeft"
         let modKeyCode := if isMac then 91 else 17
         let mask := if isMac then 4 else 2
         [{ type := KeyEventType.keyDown, key := modKey, code := modCode,
            keyCode := modKeyCode, text := none, modifiers := mask },
          { type := KeyEventType.keyDown, key := "a", code := "KeyA", keyCode := 65,
            text := some "a", modifiers := mask },
          { type := KeyEventType.keyUp, key := "a", code := "KeyA", keyCode := 65,
            text := none, modifiers := mask },
          { type := KeyEventType.keyUp, key := modKey, code := modCode,
            keyCode := modKeyCode, text := none, modifiers := 0 }]))
  ∧ (∀ k : String, KEY_DEFINITIONS_CDP k = none →
      press k = Except.error ("Unsupported key: " ++ k)) := by
  constructor
  · intro isMac
    cases isMac <;> decide
  · intro k hk
    simp [press, hk]

/-- Witness for `cdpPress_controlOrMeta_a`: `"F5"` is not in the
`src/cdp.ts` key table and is rejected. -/
theorem cdpPress_controlOrMeta_a_witness :
    KEY_DEFINITIONS_CDP "F5" = none
      ∧ press "F5" = Except.error ("Unsupported key: " ++ "F5") :=
  ⟨by decide, cdpPress_controlOrMeta_a.2 "F5" (by decide)⟩

/-! ### The automation loop of `runAutomation` (`src/background.ts`)

The loop is
```
while (state.isRunning && iteration < MAX_ITERATIONS) {
  iteration++;
  try { ... } catch (error) {
    retryCount++;
    if (!isRetriable || retryCount >= MAX_RETRIES) { broadcast(error); break; }
    ... retry after RETRY_DELAY_MS ...
  }
}
if (iteration >= MAX_ITERATIONS) { broadcast(stopped, fixed message); }
```
One iteration body is abstracted by its observable outcome: it either
completes normally (`ok`, which resets `retryCount` to 0), halts the loop
(a terminal tool call / terminal action / text-only response, emitting
its terminal status if any), or throws.  A thrown `ApiError` with
`status >= 500` is retriable (`ApiError.isRetriable` in
`src/api/errors.ts`); anything else is not. -/

/-- Terminal status broadcasts of the loop. -/
inductive Status where
  | completed (msg : String)
  | waitingForUser (msg : String)
  | error (msg : String)
  | stopped (msg : String)
  deriving DecidableEq, Repr

/-- The fixed explanatory message broadcast at the iteration cap. -/
def STOPPED_MESSAGE : String :=
  "This is taking longer than expected. Let me know if you'd like me to keep going or try a different approach."

/-- An error thrown by an iteration body (`instanceof ApiError` carries a
status; anything else does not). -/
inductive ThrownError where
  | api (message : String) (status : Nat)
  | other (message : String)
  deriving DecidableEq, Repr

/-- `ApiError.isRetriable` (`src/api/errors.ts`): `status >= 500`. -/
def isRetriableStatus (status : Nat) : Bool := 500 ≤ status

/-- `error instanceof ApiError && error.isRetriable`. -/
def errIsRetriable : ThrownError → Bool
  | ThrownError.api _ status => isRetriableStatus status
  | ThrownError.other _ => false

def errMessage : ThrownError → String
  | ThrownError.api m _ => m
  | ThrownError.other m => m

/-- Observable outcome of one iteration body. -/
inductive IterOutcome where
  | ok
  | halt (status : Option Status)
  | err (e : ThrownError)

/-- `MAX_ITERATIONS` (tool-calling generation of `runAutomation`). -/
def MAX_ITERATIONS : Nat := 100

/-- `MAX_RETRIES`. -/
def MAX_RETRIES : Nat := 3

/-- `RETRY_DELAY_MS` (the fixed retry backoff). -/
def RETRY_DELAY_MS : Nat := 1000

/-- The `if (iteration >= MAX_ITERATIONS)` broadcast after the loop. -/
def capCheck (iteration : Nat) : List Status :=
  if MAX_ITERATIONS ≤ iteration then [Status.stopped STOPPED_MESSAGE] else []

/-- The `while` loop, driven by the outcome of each iteration
(`outcomes i` is what the body of iteration `i` does).  `fuel` is the
number of loop-condition checks left before `iteration` reaches
`MAX_ITERATIONS`; `runLoop` starts it at `MAX_ITERATIONS`.  Returns the
terminal statuses broadcast, in order. -/
def loopGo (outcomes : Nat → IterOutcome) : Nat → Nat → Nat → List Status
  | 0, iteration, _ => capCheck iteration
  | fuel + 1, iteration, retryCount =>
    let i := iteration + 1
    match outcomes i with
    | IterOutcome.ok => loopGo outcomes fuel i 0
    | IterOutcome.halt st => st.toList ++ capCheck i
    | IterOutcome.err e =>
      if !errIsRetriable e || decide (MAX_RETRIES ≤ retryCount + 1) then
        Status.error (errMessage e) :: capCheck i
      else
        loopGo outcomes fuel i (retryCount + 1)

/-- All terminal statuses a run broadcasts. -/
def runLoop (outcomes : Nat → IterOutcome) : List Status :=
  loopGo outcomes MAX_ITERATIONS 0 0

theorem loopGo_all_ok (outcomes : Nat → IterOutcome) :
    ∀ (fuel iteration retryCount : Nat),
      (∀ i, iteration < i → i ≤ iteration + fuel → outcomes i = IterOutcome.ok) →
      loopGo outcomes fuel iteration retryCount = capCheck (iteration + fuel) := by
  intro fuel
  induction fuel with
  | zero => intro iteration retryCount _; rfl
  | succ f ih =>
    intro iteration retryCount h
    have h1 : outcomes (iteration + 1) = IterOutcome.ok :=
      h (iteration + 1) (Nat.lt_succ_self _) (by omega)
    show loopGo outcomes (f + 1) iteration retryCount = _
    rw [loopGo, h1]
    have harith : iteration + 1 + f = iteration + (f + 1) := by omega
    have := ih (iteration + 1) 0 (fun i hi1 hi2 => h i (by omega) (by omega))
    rw [this, harith]

theorem loopGo_err_at (outcomes : Nat → IterOutcome) (k : Nat) (e : ThrownError)
    (hre : errIsRetriable e = false) (hk : outcomes k = IterOutcome.err e) :
    ∀ (fuel iteration retryCount : Nat),
      iteration < k → k ≤ iteration + fuel →
      (∀ i, iteration < i → i < k → outcomes i = IterOutcome.ok) →
      loopGo outcomes fuel iteration retryCount
        = Status.error (errMessage e) :: capCheck k := by
  intro fuel
  induction fuel with
  | zero => intro iteration retryCount h1 h2 _; omega
  | succ f ih =>
    intro iteration retryCount h1 h2 hok
    show loopGo outcomes (f + 1) iteration retryCount = _
    by_cases hik : iteration + 1 = k
    · rw [loopGo, hik, hk]
      simp [hre]
    · have hlt : iteration + 1 < k := by omega
      have h1' : outcomes (iteration + 1) = IterOutcome.ok :=
        hok (iteration + 1) (Nat.lt_succ_self _) hlt
      rw [loopGo, h1']
      exact ih (iteration + 1) 0 hlt (by omega) (fun i hi1 hi2 => hok i (by omega) hi2)

/-- C6: a run whose every iteration up to the cap completes normally
(no terminal action executed) ends by broadcasting exactly the `stopped`
status with the fixed explanatory message and no `error`; conversely a
run whose first failure is a non-retriable error at an iteration strictly
before the cap broadcasts exactly the `error` status with that failure's
message, and never the stopped message. -/
theorem runLoop_cap_and_error (outcomes : Nat → IterOutcome) :
    ((∀ i, 1 ≤ i → i ≤ MAX_ITERATIONS → outcomes i = IterOutcome.ok) →
      runLoop outcomes = [Status.stopped STOPPED_MESSAGE])
  ∧ (∀ k e, 1 ≤ k → k < MAX_ITERATIONS →
      (∀ i, 1 ≤ i → i < k → outcomes i = IterOutcome.ok) →
      errIsRetriable e = false →
      outcomes k = IterOutcome.err e →
      runLoop outcomes = [Status.error (errMessage e)]) := by
  constructor
  · intro h
    unfold runLoop
    rw [loopGo_all_ok outcomes MAX_ITERATIONS 0 0
      (fun i hi1 hi2 => h i hi1 (by omega))]
    simp [capCheck]
  · intro k e hk1 hk2 hok hre hkerr
    unfold runLoop
    rw [loopGo_err_at outcomes k e hre hkerr MAX_ITERATIONS 0 0 (by omega) (by omega)
      (fun i hi1 hi2 => hok i hi1 hi2)]
    have : ¬ MAX_ITERATIONS ≤ k := by omega
    simp [capCheck, this]

/-- Witness for `runLoop_cap_and_error`: a run of 100 uneventful
iterations stops with the fixed message, and a run whose third iteration
throws a plain error reports exactly that error. -/
theorem runLoop_cap_and_error_witness :
    runLoop (fun _ => IterOutcome.ok) = [Status.stopped STOPPED_MESSAGE]
  ∧ runLoop (fun i => if i = 3 then IterOutcome.err (ThrownError.other "boom")
        else IterOutcome.ok)
      = [Status.error (errMessage (ThrownError.other "boom"))] :=
  ⟨(runLoop_cap_and_error (fun _ => IterOutcome.ok)).1 (fun i _ _ => rfl),
   (runLoop_cap_and_error _).2 3 (ThrownError.other "boom") (by omega) (by decide)
     (fun i hi1 hi2 => by
        have : i ≠ 3 := by omega
        simp [this])
     (by decide) (by simp)⟩

/-! ### The catch handler with action-history marking

The structured-decision generation of `runAutomation` in
`src/background.ts` (lines 347-368) additionally maintains
`actionHistory` in its catch handler:

```
retryCount++;
const isRetriable = error instanceof ApiError && error.isRetriable;
if (!isRetriable || retryCount >= MAX_RETRIES) {
  broadcastStatus({ status: "error", message: errorMessage }); break;
}
if (actionHistory.length > 0) {
  actionHistory[actionHistory.length - 1].success = false;
}
... retry after RETRY_DELAY_MS ...
```
-/

/-- `ActionHistoryEntry` of `src/types.ts` (the action itself is opaque
for this claim). -/
structure ActionHistoryEntry where
  action : String
  reasoning : Option String
  timestamp : Nat
  success : Bool
  deriving DecidableEq, Repr

/-- `actionHistory[actionHistory.length - 1].success = false` guarded by
`actionHistory.length > 0`. -/
def markLastFailed : List ActionHistoryEntry → List ActionHistoryEntry
  | [] => []
  | [e] => [{ e with success := false }]
  | e :: rest => e :: markLastFailed rest

/-- Result of one execution of the catch handler. -/
structure CatchResult where
  retryCount : Nat
  history : List ActionHistoryEntry
  emitted : Option Status
  retries : Bool
  deriving DecidableEq, Repr

/-- The catch handler of the structured-decision `runAutomation`. -/
def handleIterationError (e : ThrownError) (retryCount : Nat)
    (history : List ActionHistoryEntry) : CatchResult :=
  let rc := retryCount + 1
  if !errIsRetriable e || decide (MAX_RETRIES ≤ rc) then
    { retryCount := rc, history := history,
      emitted := some (Status.error (errMessage e)), retries := false }
  else
    { retryCount := rc, history := markLastFailed history,
      emitted := none, retries := true }

theorem markLastFailed_append (pre : List ActionHistoryEntry) (last : ActionHistoryEntry) :
    markLastFailed (pre ++ [last]) = pre ++ [{ last with success := false }] := by
  induction pre with
  | nil => rfl
  | cons e rest ih =>
    cases rest with
    | nil => rfl
    | cons e2 rest2 => simpa [markLastFailed] using ih

/-- C7: a failed iteration is retried exactly when the thrown error is an
`ApiError` with `status >= 500` and fewer than `MAX_RETRIES` failures
have accumulated; a non-retriable error emits status `error` with the
failure message verbatim and leaves the action history (in particular its
most recent entry's `success` flag) untouched; a retriable failure under
the cap emits nothing and marks the most recent history entry (if any)
`success := false` before retrying. -/
theorem catch_handler_retry_policy (e : ThrownError) (rc : Nat)
    (h : List ActionHistoryEntry) :
    ((handleIterationError e rc h).retries = true ↔
      ((∃ m s, e = ThrownError.api m s ∧ 500 ≤ s) ∧ rc + 1 < MAX_RETRIES))
  ∧ (errIsRetriable e = false →
        (handleIterationError e rc h).history = h
      ∧ (handleIterationError e rc h).emitted = some (Status.error (errMessage e))
      ∧ (handleIterationError e rc h).retries = false)
  ∧ (errIsRetriable e = true → rc + 1 < MAX_RETRIES →
        (handleIterationError e rc h).emitted = none
      ∧ (handleIterationError e rc h).history = markLastFailed h
      ∧ (∀ pre last, h = pre ++ [last] →
          (handleIterationError e rc h).history = pre ++ [{ last with success := false }])
      ∧ (handleIterationError e rc h).retries = true) := by
  refine ⟨?_, ?_, ?_⟩
  · constructor
    · intro hr
      by_cases hret : errIsRetriable e = true
      · refine ⟨?_, ?_⟩
        · cases e with
          | api m s =>
            exact ⟨m, s, rfl, by simpa [errIsRetriable, isRetriableStatus] using hret⟩
          | other m => simp [errIsRetriable] at hret
        · by_contra hge
          have hge2 : MAX_RETRIES ≤ rc + 1 := by omega
          simp [handleIterationError, hret, hge2] at hr
      · have hret2 : errIsRetriable e = false := by
          cases herr : errIsRetriable e
          · rfl
          · exact absurd herr hret
        simp [handleIterationError, hret2] at hr
    · rintro ⟨⟨m, s, rfl, hs⟩, hlt⟩
      have hret : errIsRetriable (ThrownError.api m s) = true := by
        simp [errIsRetriable, isRetriableStatus, hs]
      have hge : ¬ MAX_RETRIES ≤ rc + 1 := by omega
      simp [handleIterationError, hret, hge]
  · intro hret
    simp [handleIterationError, hret]
  · intro hret hlt
    have hge : ¬ MAX_RETRIES ≤ rc + 1 := by omega
    refine ⟨?_, ?_, ?_, ?_⟩
    · simp [handleIterationError, hret, hge]
    · simp [handleIterationError, hret, hge]
    · intro pre last hpre
      rw [hpre]
      simp [handleIterationError, hret, hge, markLastFailed_append]
    · simp [handleIterationError, hret, hge]

/-- Witness for `catch_handler_retry_policy`: a 502 `ApiError` after one
prior successful click marks that entry failed and retries; the same
history under a plain error is reported and left untouched. -/
theorem catch_handler_retry_policy_witness :
    (errIsRetriable (ThrownError.api "bad gateway" 502) = true ∧ 0 + 1 < MAX_RETRIES
      ∧ errIsRetriable (ThrownError.other "parse failure") = false)
  ∧ ((handleIterationError (ThrownError.api "bad gateway" 502) 0
        [{ action := "click", reasoning := none, timestamp := 17, success := true }]).history
      = [{ action := "click", reasoning := none, timestamp := 17, success := false }])
  ∧ ((handleIterationError (ThrownError.other "parse failure") 0
        [{ action := "click", reasoning := none, timestamp := 17, success := true }]).history
      = [{ action := "click", reasoning := none, timestamp := 17, success := true }]
    ∧ (handleIterationError (ThrownError.other "parse failure") 0
        [{ action := "click", reasoning := none, timestamp := 17, success := true }]).emitted
      = some (Status.error (errMessage (ThrownError.other "parse failure")))) :=
  ⟨⟨by decide, by decide, by decide⟩,
   by
     have h := (catch_handler_retry_policy (ThrownError.api "bad gateway" 502) 0
       [{ action := "click", reasoning := none, timestamp := 17, success := true }]).2.2
       (by decide) (by decide)
     exact h.2.2.1 [] { action := "click", reasoning := none, timestamp := 17, success := true } rfl,
   by
     have h := (catch_handler_retry_policy (ThrownError.other "parse failure") 0
       [{ action := "click", reasoning := none, timestamp := 17, success := true }]).2.1
       (by decide)
     exact ⟨h.1, h.2.1⟩⟩

/-! ### Tab hand-off: the `chrome.tabs.onCreated` listener

`src/background.ts` (tool-calling generation):

```
chrome.tabs.onCreated.addListener((tab) => {
  if (!tab.openerTabId || !tab.id) return;
  const state = tabStates.get(tab.openerTabId);
  if (state?.isRunning) {
    state.originTabId = tab.openerTabId;
    state.tabId = tab.id;
    tabStates.delete(tab.openerTabId);
    tabStates.set(tab.id, state);
  }
});
```
-/

/-- A conversation message (role and content; the structure is opaque for
the hand-off claim). -/
structure ChatMsg where
  role : String
  content : String
  deriving DecidableEq, Repr

/-- `TabState` of the tool-calling `runAutomation`. -/
structure TabState where
  isRunning : Bool
  goal : Option String
  actionHistory : List ActionHistoryEntry
  conversationMessages : List ChatMsg
  originTabId : Option Nat
  tabId : Nat
  deriving DecidableEq, Repr

/-- The `tabStates` map, keyed by tab id. -/
def SessionTable : Type := Nat → Option TabState

def tableSet (t : SessionTable) (k : Nat) (v : TabState) : SessionTable :=
  fun k2 => if k2 = k then some v else t k2

def tableDelete (t : SessionTable) (k : Nat) : SessionTable :=
  fun k2 => if k2 = k then none else t k2

/-- The `tab` argument of the listener. -/
structure CreatedTab where
  id : Option Nat
  openerTabId : Option Nat
  deriving DecidableEq, Repr

/-- The `chrome.tabs.onCreated` listener.  `!tab.openerTabId` and
`!tab.id` are JS falsiness checks, so a missing field or id `0` both
return early. -/
def onTabCreated (table : SessionTable) (tab : CreatedTab) : SessionTable :=
  match tab.openerTabId, tab.id with
  | some opener, some newId =>
    if opener = 0 ∨ newId = 0 then table
    else
      match table opener with
      | some st =>
        if st.isRunning then
          tableSet (tableDelete table opener) newId
            { st with originTabId := some opener, tabId := newId }
        else table
      | none => table
  | _, _ => table

/-- A sample running session that already carries an origin-tab pointer
from an earlier hand-off (origin tab 1, currently automating tab 2). -/
def sampleHandedOffState : TabState :=
  { isRunning := true, goal := some "buy the slippers",
    actionHistory := [{ action := "click", reasoning := none, timestamp := 5, success := true }],
    conversationMessages := [{ role := "user", content := "Goal: buy the slippers" }],
    originTabId := some 1, tabId := 2 }

/-- C9 counterexample: the listener does not preserve the origin-tab
pointer.  A running session at tab 2 whose `originTabId` is already
tab 1 is relocated to a popup tab 3, and its `originTabId` is overwritten
with the opener (tab 2) instead of staying tab 1. -/
theorem onTabCreated_origin_overwritten_cex :
    (onTabCreated (tableSet (fun _ => none) 2 sampleHandedOffState)
        { id := some 3, openerTabId := some 2 }) 3
      = some { sampleHandedOffState with originTabId := some 2, tabId := 3 }
    ∧ ({ sampleHandedOffState with originTabId := some 2, tabId := 3 }).originTabId
      ≠ sampleHandedOffState.originTabId :=
  ⟨by decide, by decide⟩

/-- C9 (amended): when a created tab has a (truthy) id and opener id and
the opener holds a running session, the session moves to the new tab: the
opener's table entry is removed, the state is re-inserted under the new
tab's key with its goal, running flag, conversation and action history
preserved unchanged, its current-tab field set to the new tab, and its
origin-tab pointer set to the opener tab's id (overwriting any previous
origin pointer); every other key is untouched.  If the opener holds no
running session, the table is unchanged. -/
theorem onTabCreated_handoff (table : SessionTable) (opener newId : Nat)
    (st : TabState) (h0 : opener ≠ 0) (h1 : newId ≠ 0) (hne : opener ≠ newId)
    (hlook : table opener = some st) :
    (st.isRunning = true →
        (onTabCreated table { id := some newId, openerTabId := some opener }) opener = none
      ∧ (onTabCreated table { id := some newId, openerTabId := some opener }) newId
          = some { st with originTabId := some opener, tabId := newId }
      ∧ (∀ k, k ≠ opener → k ≠ newId →
          (onTabCreated table { id := some newId, openerTabId := some opener }) k = table k))
  ∧ (st.isRunning = false →
      onTabCreated table { id := some newId, openerTabId := some opener } = table) := by
  have hguard : ¬ (opener = 0 ∨ newId = 0) := by
    rintro (h | h) <;> [exact h0 h; exact h1 h]
  constructor
  · intro hrun
    refine ⟨?_, ?_, ?_⟩
    · simp [onTabCreated, hguard, hlook, hrun, tableSet, tableDelete, hne]
    · simp [onTabCreated, hguard, hlook, hrun, tableSet]
    · intro k hk1 hk2
      simp [onTabCreated, hguard, hlook, hrun, tableSet, tableDelete, hk1, hk2]
  · intro hrun
    simp [onTabCreated, hguard, hlook, hrun]

/-- Witness for `onTabCreated_handoff`: the sample session at tab 2 moves
to the freshly created tab 3 with history and conversation intact. -/
theorem onTabCreated_handoff_witness :
    ((2 : Nat) ≠ 0 ∧ (3 : Nat) ≠ 0 ∧ (2 : Nat) ≠ 3
      ∧ (tableSet (fun _ => none) 2 sampleHandedOffState) 2 = some sampleHandedOffState
      ∧ sampleHandedOffState.isRunning = true)
  ∧ ((onTabCreated (tableSet (fun _ => none) 2 sampleHandedOffState)
        { id := some 3, openerTabId := some 2 }) 2 = none
    ∧ (onTabCreated (tableSet (fun _ => none) 2 sampleHandedOffState)
        { id := some 3, openerTabId := some 2 }) 3
      = some { sampleHandedOffState with originTabId := some 2, tabId := 3 }) := by
  have h := (onTabCreated_handoff (tableSet (fun _ => none) 2 sampleHandedOffState)
    2 3 sampleHandedOffState (by decide) (by decide) (by decide) (by decide)).1 (by decide)
  exact ⟨⟨by decide, by decide, by decide, by decide, by decide⟩, h.1, h.2.1⟩
